import Mathlib

/-!
Shallow embedding of the `ping` input plugin (`plugins/inputs/ping/ping.go`,
non-Windows build) of this repository.

Modelling conventions:
* Go strings are modelled as `List Char` (`GoStr`); `strings.Split`,
  `strings.Contains` and friends are re-implemented on lists with the same
  semantics as the Go standard library for the non-empty separators the
  plugin uses.
* Go `float64` values are modelled as exact rationals (`ℚ`).  Every numeric
  string appearing in real ping output is an exact decimal, so the decimal
  parser below is exact; `strconv.ParseFloat` rounding, `Inf`/`NaN` spellings
  and hexadecimal floats never arise in the plugin's inputs and are not
  modelled.  Rational values are always constructed through `mkRat` /
  `Rat.divInt` so that all definitions evaluate inside the kernel.
* Go `int` is modelled as `Int` with the `strconv.Atoi` 64-bit range check
  made explicit.
* A Go runtime panic (index out of range on a slice or on a regexp match
  that returned no submatches) is modelled by the `GoResult.panic`
  constructor; normal return values live under `GoResult.ok`.
* The accumulator (`telegraf.Accumulator`) is modelled by counting its two
  channels: how many error strings were added (`errorsReported`) and how
  many field sets were added (`fieldsReported`).  The concrete text of error
  messages (including the `strings.TrimSpace` call used only to format one
  of them) is not modelled.
* `net.LookupHost` success/failure and the result of `p.pingHost` (combined
  output plus an error that may or may not carry an exit status) are inputs
  of the model, mirroring the spec's view of them as boundary calls.
-/

set_option maxRecDepth 100000

/-- Go strings, as lists of characters. -/
abbrev GoStr := List Char

/-- ASCII digit test, used by the numeric parsers and the `ttl=(\d+)` regexp. -/
def goIsDigit (c : Char) : Bool := '0' ≤ c && c ≤ '9'

/-- List prefix test (Boolean). -/
def isPrefixL : GoStr → GoStr → Bool
  | [], _ => true
  | _ :: _, [] => false
  | a :: as, b :: bs => a == b && isPrefixL as bs

/-- Model of Go `strings.Contains s sub`: some suffix of `s` starts with `sub`. -/
def containsGo (s sub : GoStr) : Bool :=
  match s with
  | [] => isPrefixL sub []
  | c :: rest => isPrefixL sub (c :: rest) || containsGo rest sub

/-- Worker for `splitGo`, structurally recursive on a fuel argument so that it
evaluates inside the kernel.  Each step consumes at least one character of the
string, so fuel `s.length` is always enough; the fuel-exhausted branch is
unreachable in `splitGo`. -/
def splitGoFuel (sep : GoStr) : Nat → GoStr → GoStr → List GoStr
  | 0, acc, s => [acc.reverse ++ s]
  | fuel + 1, acc, s =>
    match s with
    | [] => [acc.reverse]
    | c :: rest =>
      if isPrefixL sep (c :: rest) then
        acc.reverse :: splitGoFuel sep fuel [] (List.drop (sep.length - 1) rest)
      else
        splitGoFuel sep fuel (c :: acc) rest

/-- Model of Go `strings.Split s sep` for a non-empty separator: the list of
substrings between non-overlapping left-to-right occurrences of `sep`.
Always returns at least one element. -/
def splitGo (s sep : GoStr) : List GoStr := splitGoFuel sep s.length [] s

/-- Decimal digits to a natural number, most significant first. -/
def digitsToNat (acc : Nat) : GoStr → Nat
  | [] => acc
  | c :: rest => digitsToNat (acc * 10 + (c.toNat - '0'.toNat)) rest

/-- Longest digit prefix of a string, and the remainder. -/
def spanDigits : GoStr → GoStr × GoStr
  | [] => ([], [])
  | c :: rest =>
    if goIsDigit c then
      match spanDigits rest with
      | (ds, r) => (c :: ds, r)
    else ([], c :: rest)

/-- Model of Go `strconv.Atoi` (i.e. `ParseInt(s, 10, 64)`): optional sign,
then a non-empty run of digits, with the 64-bit range check.  Returns the Go
result value together with an error flag: `(0, true)` on a syntax error, the
clamped bound with `true` on a range error. -/
def goAtoi (s : GoStr) : Int × Bool :=
  let core : GoStr → Bool → Int × Bool := fun ds neg =>
    if ds ≠ [] && ds.all goIsDigit then
      let v : Int := if neg then -(digitsToNat 0 ds : Int) else (digitsToNat 0 ds : Int)
      if v < -(2 ^ 63) then (-(2 ^ 63), true)
      else if 2 ^ 63 - 1 < v then (2 ^ 63 - 1, true)
      else (v, false)
    else (0, true)
  match s with
  | '+' :: rest => core rest false
  | '-' :: rest => core rest true
  | _ => core s false

/-- Value of a parsed decimal: sign, mantissa digits `m`, number of fraction
digits `fracLen`, decimal exponent `e`; built with a single `mkRat` so that it
evaluates in the kernel. -/
def decValue (neg : Bool) (m fracLen : Nat) (e : Int) : ℚ :=
  let sm : Int := if neg then -(m : Int) else (m : Int)
  if 0 ≤ e then mkRat (sm * (10 ^ e.toNat)) (10 ^ fracLen)
  else mkRat sm (10 ^ fracLen * 10 ^ (-e).toNat)

/-- Exponent part of a float literal (what follows `e`/`E`): optional sign and
a non-empty run of digits. -/
def parseExpPart : GoStr → Option Int
  | [] => none
  | '+' :: r => if r ≠ [] && r.all goIsDigit then some (digitsToNat 0 r : Int) else none
  | '-' :: r => if r ≠ [] && r.all goIsDigit then some (-(digitsToNat 0 r : Int)) else none
  | s => if s.all goIsDigit then some (digitsToNat 0 s : Int) else none

/-- Optional exponent suffix after the mantissa of a float literal. -/
def finishExp (neg : Bool) (m fracLen : Nat) (rest : GoStr) : Option ℚ :=
  match rest with
  | [] => some (decValue neg m fracLen 0)
  | 'e' :: r => (parseExpPart r).map (decValue neg m fracLen)
  | 'E' :: r => (parseExpPart r).map (decValue neg m fracLen)
  | _ => none

/-- Mantissa (digits, optionally with one dot, at least one digit overall)
followed by an optional exponent. -/
def parseAfterSign (neg : Bool) (s : GoStr) : Option ℚ :=
  match spanDigits s with
  | (ip, rest1) =>
    match rest1 with
    | '.' :: r2 =>
      match spanDigits r2 with
      | (fp, rest2) =>
        if ip = [] && fp = [] then none
        else finishExp neg (digitsToNat 0 (ip ++ fp)) fp.length rest2
    | _ =>
      if ip = [] then none
      else finishExp neg (digitsToNat 0 ip) 0 rest1

/-- Model of Go `strconv.ParseFloat(s, 64)` on the decimal forms that ping
output contains, with exact rational values.  Returns the value and an error
flag; `(0, true)` on a syntax error. -/
def goParseFloat (s : GoStr) : ℚ × Bool :=
  let r := match s with
    | '+' :: rest => parseAfterSign false rest
    | '-' :: rest => parseAfterSign true rest
    | _ => parseAfterSign false s
  match r with
  | none => (0, true)
  | some q => (q, false)

/-- Result of running a piece of Go code that can panic at runtime. -/
inductive GoResult (α : Type) where
  | ok (val : α)
  | panic
deriving DecidableEq, Repr

/-- Maximal digit run at the head of a string (the greedy `\d+`). -/
def takeDigits : GoStr → GoStr
  | [] => []
  | c :: rest => if goIsDigit c then c :: takeDigits rest else []

/-- Leftmost match of the regexp `ttl=(\d+)`: the first position where `ttl=`
is immediately followed by at least one digit; returns the captured digit run,
or `none` when the regexp does not match. -/
def findTTLDigits : GoStr → Option GoStr
  | [] => none
  | c :: rest =>
    if isPrefixL ('t' :: 't' :: 'l' :: '=' :: []) (c :: rest) then
      let ds := takeDigits (List.drop 3 rest)
      if ds = [] then findTTLDigits rest else some ds
    else findTTLDigits rest

/-- Embedding of `getTTL` (ping.go:298-302): `strconv.Atoi` applied to capture
group 1 of `ttl=(\d+)`.  When the regexp finds no match, `FindStringSubmatch`
returns `nil` and the Go code's `ttlMatch[1]` panics. -/
def getTTL (line : GoStr) : GoResult (Int × Bool) :=
  match findTTLDigits line with
  | none => .panic
  | some ds => .ok (goAtoi ds)

/-- Embedding of `getPacketStats` (ping.go:286-296): split the line on `", "`,
read the first space-token of piece 0 as the transmitted count, then the first
space-token of piece 1 as the received count.  Indexing a missing piece is a
Go panic. -/
def getPacketStats (line : GoStr) (trans recv : Int) : GoResult (Int × Int × Bool) :=
  let stats := splitGo line (',' :: ' ' :: [])
  match stats.get? 0 with
  | none => .panic
  | some s0 =>
    match (splitGo s0 (' ' :: [])).get? 0 with
    | none => .panic
    | some t0 =>
      match goAtoi t0 with
      | (t, true) => .ok (t, recv, true)
      | (t, false) =>
        match stats.get? 1 with
        | none => .panic
        | some s1 =>
          match (splitGo s1 (' ' :: [])).get? 0 with
          | none => .panic
          | some r0 =>
            match goAtoi r0 with
            | (r, e) => .ok (t, r, e)

/-- Embedding of `checkRoundTripTimeStats` (ping.go:304-328): token index 3 of
the space-split line holds `/`-separated floats; parse entry 0, 1, 2, and
entry 3 exactly when there are four entries, returning at the first parse
error.  Indexing a missing token or entry is a Go panic. -/
def checkRoundTripTimeStats (line : GoStr) (mn av mx sd : ℚ) :
    GoResult (ℚ × ℚ × ℚ × ℚ × Bool) :=
  match (splitGo line (' ' :: [])).get? 3 with
  | none => .panic
  | some stats =>
    let data := splitGo stats ('/' :: [])
    match data.get? 0 with
    | none => .panic
    | some d0 =>
      match goParseFloat d0 with
      | (v0, true) => .ok (v0, av, mx, sd, true)
      | (v0, false) =>
        match data.get? 1 with
        | none => .panic
        | some d1 =>
          match goParseFloat d1 with
          | (v1, true) => .ok (v0, v1, mx, sd, true)
          | (v1, false) =>
            match data.get? 2 with
            | none => .panic
            | some d2 =>
              match goParseFloat d2 with
              | (v2, true) => .ok (v0, v1, v2, sd, true)
              | (v2, false) =>
                if data.length = 4 then
                  match data.get? 3 with
                  | none => .panic
                  | some d3 =>
                    match goParseFloat d3 with
                    | (v3, e3) => .ok (v0, v1, v2, v3, e3)
                else .ok (v0, v1, v2, sd, false)

/-- Return value of `processPingOutput`: transmitted, received, ttl, min, avg,
max, stddev, and the error as a flag (`err = true` means a non-nil Go error). -/
structure PingStats where
  trans : Int
  recv : Int
  ttl : Int
  minMs : ℚ
  avgMs : ℚ
  maxMs : ℚ
  stddevMs : ℚ
  err : Bool
deriving DecidableEq, Repr

/-- The line loop of `processPingOutput` (ping.go:260-284), carrying the Go
locals `trans, recv, ttl, min, avg, max, stddev, err`.  The packet-stats and
round-trip branches return early on a parse error; the ttl branch assigns
`ttl, err` and keeps looping, exactly as the source does. -/
def processLines : List GoStr → Int → Int → Int → ℚ → ℚ → ℚ → ℚ → Bool → GoResult PingStats
  | [], tr, rv, ttl, mn, av, mx, sd, err => .ok ⟨tr, rv, ttl, mn, av, mx, sd, err⟩
  | line :: rest, tr, rv, ttl, mn, av, mx, sd, err =>
    if (ttl == -1) && containsGo line ('t' :: 't' :: 'l' :: '=' :: []) then
      match getTTL line with
      | .panic => .panic
      | .ok (t, e) => processLines rest tr rv t mn av mx sd e
    else if containsGo line "transmitted".toList && containsGo line "received".toList then
      match getPacketStats line tr rv with
      | .panic => .panic
      | .ok (t, r, e) =>
        if e then .ok ⟨t, r, ttl, mn, av, mx, sd, e⟩
        else processLines rest t r ttl mn av mx sd e
    else if containsGo line "min/avg/max".toList then
      match checkRoundTripTimeStats line mn av mx sd with
      | .panic => .panic
      | .ok (m2, a2, x2, s2, e) =>
        if e then .ok ⟨tr, rv, ttl, m2, a2, x2, s2, e⟩
        else processLines rest tr rv ttl m2 a2 x2 s2 e
    else processLines rest tr rv ttl mn av mx sd err

/-- Embedding of `processPingOutput` (ping.go:260-284): split the output into
lines and run the loop with the source's initial values `trans = recv = 0`,
`ttl = -1`, `min = avg = max = stddev = -1.0`, and the sentinel error
(`errors.New "Fatal error processing ping output"`, modelled as `err = true`). -/
def processPingOutput (out : GoStr) : GoResult PingStats :=
  processLines (splitGo out ('\n' :: [])) 0 0 (-1) (-1) (-1) (-1) (-1) true

/-- The field set emitted for one target (`acc.AddFields("ping", fields, tags)`):
the `result_code` key is always present, the others only when the
corresponding `fields[...]` assignment ran. -/
structure Fields where
  result_code : Int
  packets_transmitted : Option Int := none
  packets_received : Option Int := none
  percent_packet_loss : Option ℚ := none
  ttl : Option Int := none
  minimum_response_ms : Option ℚ := none
  average_response_ms : Option ℚ := none
  maximum_response_ms : Option ℚ := none
  standard_deviation_ms : Option ℚ := none
deriving DecidableEq, Repr

/-- The error returned by `p.pingHost`, as `pingToURL` discriminates it:
no error; an `*exec.ExitError` whose `Sys()` is a `syscall.WaitStatus`
carrying an exit status; or any other error (including an `ExitError`
without an extractable status), for which `status` stays `-1`. -/
inductive ExecErr where
  | noErr
  | exitStatus (code : Int)
  | otherErr
deriving DecidableEq, Repr

/-- Everything `pingToURL` makes observable on the accumulator for one target,
plus two instrumentation bits recording whether the external binary
(`p.pingHost`) and the parser (`processPingOutput`) were invoked. -/
structure Report where
  fields : Fields
  errorsReported : Nat
  fieldsReported : Nat
  pingerInvoked : Bool
  parserInvoked : Bool
deriving DecidableEq, Repr

/-- Packet loss as computed by `pingToURL` (ping.go:163-164):
`float64(trans-rec) / float64(trans) * 100.0`, as an exact rational.
For `trans = 0` the Go float division yields NaN while `Rat.divInt _ 0 = 0`;
none of the claims evaluates the loss at `trans = 0`. -/
def packetLoss (tr rv : Int) : ℚ := Rat.divInt ((tr - rv) * 100) tr

/-- The successful-parse field set of `pingToURL` (ping.go:163-182): packet
counts and loss always, ttl and each timing only when the parser's value is
not its negative sentinel. -/
def emitStatsFields (rc : Int) (s : PingStats) : Fields :=
  { result_code := rc
    packets_transmitted := some s.trans
    packets_received := some s.recv
    percent_packet_loss := some (packetLoss s.trans s.recv)
    ttl := if 0 ≤ s.ttl then some s.ttl else none
    minimum_response_ms := if 0 ≤ s.minMs then some s.minMs else none
    average_response_ms := if 0 ≤ s.avgMs then some s.avgMs else none
    maximum_response_ms := if 0 ≤ s.maxMs then some s.maxMs else none
    standard_deviation_ms := if 0 ≤ s.stddevMs then some s.stddevMs else none }

/-- The tail of `pingToURL` from the `processPingOutput` call on
(ping.go:155-183): a parse error is reported as one error plus a field set
with `result_code = 2`; on success the full statistics are emitted with the
`result_code` accumulated so far (`rc` = 0, or the captured exit status 1). -/
def parseAndReport (rc : Int) (out : GoStr) : GoResult Report :=
  match processPingOutput out with
  | .panic => .panic
  | .ok s =>
    if s.err then
      .ok { fields := { result_code := 2 }, errorsReported := 1, fieldsReported := 1,
            pingerInvoked := true, parserInvoked := true }
    else
      .ok { fields := emitStatsFields rc s, errorsReported := 0, fieldsReported := 1,
            pingerInvoked := true, parserInvoked := true }

/-- Embedding of `pingToURL` (ping.go:109-183).  Inputs: whether
`net.LookupHost` succeeded, and the output/error pair produced by
`p.pingHost`.  Control flow mirrors the source: resolution failure
short-circuits with `result_code = 1`; a captured exit status is written to
`result_code`; any error whose status is not exactly 1 is fatal and
overwrites `result_code` with 2 without parsing; otherwise the output is
parsed. -/
def pingToURL (resolves : Bool) (out : GoStr) (e : ExecErr) : GoResult Report :=
  if resolves = false then
    .ok { fields := { result_code := 1 }, errorsReported := 1, fieldsReported := 1,
          pingerInvoked := false, parserInvoked := false }
  else
    match e with
    | .noErr => parseAndReport 0 out
    | .exitStatus code =>
      if code = 1 then parseAndReport code out
      else
        .ok { fields := { result_code := 2 }, errorsReported := 1, fieldsReported := 1,
              pingerInvoked := true, parserInvoked := false }
    | .otherErr =>
      .ok { fields := { result_code := 2 }, errorsReported := 1, fieldsReported := 1,
            pingerInvoked := true, parserInvoked := false }

/-- Projection used by closed counterexamples: the `result_code` of a report,
or `none` if the code path panicked. -/
def resultCodeOf : GoResult Report → Option Int
  | .ok r => some r.fields.result_code
  | .panic => none

/-- Embedding of the wall-clock timeout computation of `pingToURL`
(ping.go:122-126): 60 seconds unless the explicit `Arguments` override is
empty, in which case `float64(Count)*Timeout + float64(Count-1)*PingInterval`. -/
def totalTimeout (arguments : List String) (count : Int) (timeout pingInterval : ℚ) : ℚ :=
  if arguments.length = 0 then
    ((count : ℚ)) * timeout + (((count - 1 : Int) : ℚ)) * pingInterval
  else 60

/-- Truncation of a rational toward zero, the semantics of Go's
float64-to-`time.Duration` conversion. -/
def ratTrunc (x : ℚ) : Int := if 0 ≤ x then ⌊x⌋ else -⌊-x⌋

/-- Embedding of the deadline `hostPinger` passes to
`internal.CombinedOutputTimeout` (ping.go:186-195):
`time.Second * time.Duration(timeout+5)` in nanoseconds, i.e. the timeout
plus a fixed 5-second safety margin, truncated to whole seconds. -/
def hostPingerDeadlineNs (timeout : ℚ) : Int := 1000000000 * ratTrunc (timeout + 5)

/-- The configuration fields of the `Ping` struct that `args` reads
(ping.go:28-57). -/
structure PingConfig where
  pingInterval : ℚ
  count : Int
  timeout : ℚ
  deadline : Int
  iface : String
  arguments : List String

/-- Stand-in for `strconv.FormatFloat(x, 'f', -1, 64)`.  The claims never
constrain the digits of a rendered number, only which flags surround it, so
any injective rendering works; `toString` on `ℚ` is used. -/
def fmtFloat (q : ℚ) : String := toString q

/-- Embedding of `(*Ping).args` (ping.go:198-247).  `strconv.Itoa` is
`toString` on `Int`. -/
def args (p : PingConfig) (url system : String) : List String :=
  if 0 < p.arguments.length then p.arguments ++ [url]
  else
    let a0 := ["-c", toString p.count, "-n", "-s", "16"]
    let a1 := if 0 < p.pingInterval then a0 ++ ["-i", fmtFloat p.pingInterval] else a0
    let a2 :=
      if 0 < p.timeout then
        if system = "darwin" then a1 ++ ["-W", fmtFloat (p.timeout * 1000)]
        else if system = "freebsd" ∨ system = "netbsd" ∨ system = "openbsd" then
          a1 ++ ["-W", fmtFloat (p.timeout * 1000)]
        else if system = "linux" then a1 ++ ["-W", fmtFloat p.timeout]
        else a1 ++ ["-W", fmtFloat p.timeout]
      else a1
    let a3 :=
      if 0 < p.deadline then
        if system = "darwin" ∨ system = "freebsd" ∨ system = "netbsd" ∨ system = "openbsd" then
          a2 ++ ["-t", toString p.deadline]
        else if system = "linux" then a2 ++ ["-w", toString p.deadline]
        else a2 ++ ["-w", toString p.deadline]
      else a2
    let a4 :=
      if p.iface ≠ "" then
        if system = "darwin" then a3 ++ ["-I", p.iface]
        else if system = "freebsd" ∨ system = "netbsd" ∨ system = "openbsd" then
          a3 ++ ["-s", p.iface]
        else if system = "linux" then a3 ++ ["-I", p.iface]
        else a3 ++ ["-i", p.iface]
      else a3
    a4 ++ [url]

/-- OS families whose timeout flag takes milliseconds, per the spec sentence
for claim C8 ("milliseconds on darwin/freebsd/netbsd/openbsd"). -/
def msTimeoutFamily (system : String) : Prop :=
  system = "darwin" ∨ system = "freebsd" ∨ system = "netbsd" ∨ system = "openbsd"

instance (system : String) : Decidable (msTimeoutFamily system) := by
  unfold msTimeoutFamily; infer_instance

/-- OS families whose deadline flag is `-t`, per the spec sentence for claim
C8 ("`-t` on BSD-family/Darwin, `-w` on linux and default"). -/
def bsdDeadlineFamily (system : String) : Prop :=
  system = "darwin" ∨ system = "freebsd" ∨ system = "netbsd" ∨ system = "openbsd"

instance (system : String) : Decidable (bsdDeadlineFamily system) := by
  unfold bsdDeadlineFamily; infer_instance

/-- Interface flag letter per the spec sentence for claim C8: `-I` on
linux/darwin, `-s` on the BSD family, a fallback letter otherwise. -/
def ifaceFlag (system : String) : String :=
  if system = "linux" ∨ system = "darwin" then "-I"
  else if system = "freebsd" ∨ system = "netbsd" ∨ system = "openbsd" then "-s"
  else "-i"

/-- Modelled from the spec's words for claim C8: the argument list as the
claim describes it, to be compared with `args` (which is translated from the
source).  When `arguments` is non-empty, that list with the target appended;
otherwise count and payload-size base flags, then interval, timeout (in the
family's unit), deadline (`-t`/`-w` by family), interface flag, and the
target always last. -/
def argsSpec (p : PingConfig) (url system : String) : List String :=
  if p.arguments ≠ [] then p.arguments ++ [url]
  else
    ["-c", toString p.count, "-n", "-s", "16"]
    ++ (if 0 < p.pingInterval then ["-i", fmtFloat p.pingInterval] else [])
    ++ (if 0 < p.timeout then
          ["-W", if msTimeoutFamily system then fmtFloat (p.timeout * 1000)
                 else fmtFloat p.timeout]
        else [])
    ++ (if 0 < p.deadline then
          [(if bsdDeadlineFamily system then "-t" else "-w"), toString p.deadline]
        else [])
    ++ (if p.iface ≠ "" then [ifaceFlag system, p.iface] else [])
    ++ [url]

/-- C2, divergence of the code from the claim: an input consisting only of a
parseable `ttl=` line, and one consisting only of a parseable `min/avg/max`
line, both make `processPingOutput` return a NIL error (`err = false`),
because `ttl, err = getTTL(line)` and the round-trip branch overwrite the
sentinel error — although no line contains both `transmitted` and `received`.
The claim (and the source's own comment, which says the error is cleared on
finding a `transmitted` line) requires a non-nil error here. -/
theorem claim2_no_summary_line_yet_nil_error :
    processPingOutput ("64 bytes from 1.2.3.4: icmp_seq=0 ttl=54 time=52.172 ms").toList
      = .ok ⟨0, 0, 54, -1, -1, -1, -1, false⟩
    ∧ processPingOutput ("round-trip min/avg/max/stddev = 34.843/43.508/52.172/8.664 ms").toList
      = .ok ⟨0, 0, -1, mkRat 34843 1000, mkRat 43508 1000, mkRat 52172 1000,
             mkRat 8664 1000, false⟩ := by
  decide

/-- C5: the three-line concrete scenario parses to transmitted 2, received 2,
ttl 54, min 34.843, avg 43.508, max 52.172, stddev 8.664 with nil error, and
the caller-computed loss is 0; `pingToURL` therefore emits the full field set
with `result_code = 0`. -/
theorem claim5_concrete_scenario :
    processPingOutput
        ("64 bytes from 1.2.3.4: icmp_seq=0 ttl=54 time=52.172 ms\n2 packets transmitted, 2 packets received, 0.0% packet loss\nround-trip min/avg/max/stddev = 34.843/43.508/52.172/8.664 ms").toList
      = .ok ⟨2, 2, 54, mkRat 34843 1000, mkRat 43508 1000, mkRat 52172 1000,
             mkRat 8664 1000, false⟩
    ∧ mkRat 34843 1000 = (34.843 : ℚ)
    ∧ mkRat 43508 1000 = (43.508 : ℚ)
    ∧ mkRat 52172 1000 = (52.172 : ℚ)
    ∧ mkRat 8664 1000 = (8.664 : ℚ)
    ∧ packetLoss 2 2 = 0
    ∧ pingToURL true
        ("64 bytes from 1.2.3.4: icmp_seq=0 ttl=54 time=52.172 ms\n2 packets transmitted, 2 packets received, 0.0% packet loss\nround-trip min/avg/max/stddev = 34.843/43.508/52.172/8.664 ms").toList
        .noErr
      = .ok { fields := { result_code := 0, packets_transmitted := some 2,
                          packets_received := some 2, percent_packet_loss := some 0,
                          ttl := some 54,
                          minimum_response_ms := some (mkRat 34843 1000),
                          average_response_ms := some (mkRat 43508 1000),
                          maximum_response_ms := some (mkRat 52172 1000),
                          standard_deviation_ms := some (mkRat 8664 1000) },
              errorsReported := 0, fieldsReported := 1,
              pingerInvoked := true, parserInvoked := true } := by
  refine ⟨by decide, ?_, ?_, ?_, ?_, by decide, by decide⟩
  all_goals norm_num [Rat.mkRat_eq_div]

/-- C9: each of the three under-shaped line forms reaches the out-of-bounds
(panic) branch of the embedding: a line with `transmitted` and `received` but
no `", "` separator (second `", "`-piece is read), a line whose `ttl=` is not
followed by a digit (capture group of a failed regexp match is read), and a
`min/avg/max` line with fewer than four space-separated tokens (token index 3
is read). -/
theorem claim9_out_of_bounds_branches_reachable :
    processPingOutput ("5 transmitted received").toList = .panic
    ∧ processPingOutput ("ttl=x").toList = .panic
    ∧ processPingOutput ("min/avg/max").toList = .panic := by
  decide

/-- C4, divergence of the code from the claim: a summary line declaring 0
transmitted packets produces a successful parse (`err = false`) with
transmitted = 0, so a nil error does not guarantee transmitted ≥ 1. -/
theorem claim4_counterexample :
    processPingOutput ("0 packets transmitted, 0 packets received, 0.0% packet loss").toList
      = .ok ⟨0, 0, -1, -1, -1, -1, -1, false⟩ := by
  decide

/-- C4 (amended): `processPingOutput` can return a nil error together with a
transmitted count of 0, so the caller's packet-loss division is not protected
against division by zero by any parser contract. -/
theorem claim4_nil_error_with_zero_transmitted :
    ∃ (out : GoStr) (s : PingStats),
      processPingOutput out = .ok s ∧ s.err = false ∧ s.trans = 0 :=
  ⟨("0 packets transmitted, 0 packets received, 0.0% packet loss").toList,
   ⟨0, 0, -1, -1, -1, -1, -1, false⟩, by decide, rfl, rfl⟩

/-- C6: when name resolution fails, `pingToURL` reports exactly one field set
holding only `result_code = 1`, one error on the error channel, and never
invokes the external ping binary (and hence never the parser), for every
possible pinger output and error. -/
theorem claim6_resolution_failure_short_circuits :
    ∀ (out : GoStr) (e : ExecErr),
      pingToURL false out e
        = .ok { fields := { result_code := 1 }, errorsReported := 1, fieldsReported := 1,
                pingerInvoked := false, parserInvoked := false } := by
  intro out e
  rfl

/-- C1, divergence of the code from the claim: on the well-formed three-line
output, with exit status exactly 1, the code still parses and emits full
statistics, but `fields["result_code"] = status` has set `result_code` to 1,
not to the 0 the claim requires. -/
theorem claim1_counterexample :
    processPingOutput
        ("64 bytes from 1.2.3.4: icmp_seq=0 ttl=54 time=52.172 ms\n2 packets transmitted, 2 packets received, 0.0% packet loss\nround-trip min/avg/max/stddev = 34.843/43.508/52.172/8.664 ms").toList
      = .ok ⟨2, 2, 54, mkRat 34843 1000, mkRat 43508 1000, mkRat 52172 1000,
             mkRat 8664 1000, false⟩
    ∧ resultCodeOf (pingToURL true
        ("64 bytes from 1.2.3.4: icmp_seq=0 ttl=54 time=52.172 ms\n2 packets transmitted, 2 packets received, 0.0% packet loss\nround-trip min/avg/max/stddev = 34.843/43.508/52.172/8.664 ms").toList
        (.exitStatus 1))
      = some 1
    ∧ some (1 : Int) ≠ some (0 : Int) := by
  refine ⟨by decide, by decide, by decide⟩

/-- C1 (amended): if the external binary exits with status exactly 1 and the
output parses with a nil error, `pingToURL` is non-fatal and reports the full
statistics fields, but with `result_code = 1` — the captured exit status —
rather than 0. -/
theorem claim1_exit_status_one_nonfatal :
    ∀ (out : GoStr) (s : PingStats),
      processPingOutput out = .ok s → s.err = false →
      pingToURL true out (.exitStatus 1)
        = .ok { fields := { result_code := 1,
                            packets_transmitted := some s.trans,
                            packets_received := some s.recv,
                            percent_packet_loss := some (packetLoss s.trans s.recv),
                            ttl := if 0 ≤ s.ttl then some s.ttl else none,
                            minimum_response_ms := if 0 ≤ s.minMs then some s.minMs else none,
                            average_response_ms := if 0 ≤ s.avgMs then some s.avgMs else none,
                            maximum_response_ms := if 0 ≤ s.maxMs then some s.maxMs else none,
                            standard_deviation_ms :=
                              if 0 ≤ s.stddevMs then some s.stddevMs else none },
                errorsReported := 0, fieldsReported := 1,
                pingerInvoked := true, parserInvoked := true } := by
  intro out s h herr
  simp [pingToURL, parseAndReport, h, herr, emitStatsFields]

/-- Witness for C1's amended theorem at a concrete one-line output. -/
theorem claim1_witness :
    pingToURL true ("1 packets transmitted, 1 packets received, 0.0% packet loss").toList
        (.exitStatus 1)
      = .ok { fields := { result_code := 1, packets_transmitted := some 1,
                          packets_received := some 1, percent_packet_loss := some 0 },
              errorsReported := 0, fieldsReported := 1,
              pingerInvoked := true, parserInvoked := true } := by
  rw [claim1_exit_status_one_nonfatal _ ⟨1, 1, -1, -1, -1, -1, -1, false⟩ (by decide) rfl]
  decide

/-- C3, divergence of the code from the claim: with a distinguishable exit
status of 3, the fatal branch overwrites the captured status and reports
`result_code = 2`, not 3. -/
theorem claim3_counterexample :
    resultCodeOf (pingToURL true [] (.exitStatus 3)) = some 2
    ∧ some (2 : Int) ≠ some (3 : Int) := by
  decide

/-- C3 (amended): when the invocation fails with a distinguishable exit
status other than 1, `pingToURL` reports the outcome with `result_code = 2`
regardless of that status — the captured status written to the fields is
overwritten by the fatal branch's fallback 2 — and does not invoke the
parser. -/
theorem claim3_other_status_fatal_code_two :
    ∀ (code : Int) (out : GoStr), code ≠ 1 →
      pingToURL true out (.exitStatus code)
        = .ok { fields := { result_code := 2 }, errorsReported := 1, fieldsReported := 1,
                pingerInvoked := true, parserInvoked := false } := by
  intro code out h
  simp [pingToURL, h]

/-- Witness for C3's amended theorem at exit status 3. -/
theorem claim3_witness :
    pingToURL true [] (.exitStatus 3)
      = .ok { fields := { result_code := 2 }, errorsReported := 1, fieldsReported := 1,
              pingerInvoked := true, parserInvoked := false } :=
  claim3_other_status_fatal_code_two 3 [] (by decide)


/-- C7: for a line whose fourth whitespace-delimited token is a `/`-separated
list, `checkRoundTripTimeStats` returns, in order: the three parsed numbers
as min/avg/max with stddev left at its caller-supplied sentinel when there
are exactly three well-formed entries; all four numbers when there are four;
and on the first non-numeric entry it returns immediately with a non-nil
error, the later outputs still holding their old values. -/
theorem claim7_round_trip_token_parsing :
    ∀ (line stats : GoStr) (mn av mx sd : ℚ),
      (splitGo line (' ' :: []))[3]? = some stats →
      ((∀ (d0 d1 d2 : GoStr) (q1 q2 q3 : ℚ),
          splitGo stats ('/' :: []) = [d0, d1, d2] →
          goParseFloat d0 = (q1, false) → goParseFloat d1 = (q2, false) →
          goParseFloat d2 = (q3, false) →
          checkRoundTripTimeStats line mn av mx sd = .ok (q1, q2, q3, sd, false))
      ∧ (∀ (d0 d1 d2 d3 : GoStr) (q1 q2 q3 q4 : ℚ),
          splitGo stats ('/' :: []) = [d0, d1, d2, d3] →
          goParseFloat d0 = (q1, false) → goParseFloat d1 = (q2, false) →
          goParseFloat d2 = (q3, false) → goParseFloat d3 = (q4, false) →
          checkRoundTripTimeStats line mn av mx sd = .ok (q1, q2, q3, q4, false))
      ∧ (∀ (d0 : GoStr) (rest : List GoStr) (v : ℚ),
          splitGo stats ('/' :: []) = d0 :: rest →
          goParseFloat d0 = (v, true) →
          checkRoundTripTimeStats line mn av mx sd = .ok (v, av, mx, sd, true))
      ∧ (∀ (d0 d1 : GoStr) (rest : List GoStr) (q1 v : ℚ),
          splitGo stats ('/' :: []) = d0 :: d1 :: rest →
          goParseFloat d0 = (q1, false) → goParseFloat d1 = (v, true) →
          checkRoundTripTimeStats line mn av mx sd = .ok (q1, v, mx, sd, true))
      ∧ (∀ (d0 d1 d2 : GoStr) (rest : List GoStr) (q1 q2 v : ℚ),
          splitGo stats ('/' :: []) = d0 :: d1 :: d2 :: rest →
          goParseFloat d0 = (q1, false) → goParseFloat d1 = (q2, false) →
          goParseFloat d2 = (v, true) →
          checkRoundTripTimeStats line mn av mx sd = .ok (q1, q2, v, sd, true))
      ∧ (∀ (d0 d1 d2 d3 : GoStr) (q1 q2 q3 v : ℚ),
          splitGo stats ('/' :: []) = [d0, d1, d2, d3] →
          goParseFloat d0 = (q1, false) → goParseFloat d1 = (q2, false) →
          goParseFloat d2 = (q3, false) → goParseFloat d3 = (v, true) →
          checkRoundTripTimeStats line mn av mx sd = .ok (q1, q2, q3, v, true))) := by
  intro line stats mn av mx sd hline
  refine ⟨?_, ?_, ?_, ?_, ?_, ?_⟩
  · intro d0 d1 d2 q1 q2 q3 hdata hp0 hp1 hp2
    simp [checkRoundTripTimeStats, hline, hdata, hp0, hp1, hp2]
  · intro d0 d1 d2 d3 q1 q2 q3 q4 hdata hp0 hp1 hp2 hp3
    simp [checkRoundTripTimeStats, hline, hdata, hp0, hp1, hp2, hp3]
  · intro d0 rest v hdata hp0
    simp [checkRoundTripTimeStats, hline, hdata, hp0]
  · intro d0 d1 rest q1 v hdata hp0 hp1
    simp [checkRoundTripTimeStats, hline, hdata, hp0, hp1]
  · intro d0 d1 d2 rest q1 q2 v hdata hp0 hp1 hp2
    simp [checkRoundTripTimeStats, hline, hdata, hp0, hp1, hp2]
  · intro d0 d1 d2 d3 q1 q2 q3 v hdata hp0 hp1 hp2 hp3
    simp [checkRoundTripTimeStats, hline, hdata, hp0, hp1, hp2, hp3]

/-- Witness for C7 at the concrete line `round-trip min/avg/max = 1/2/3 ms`
(three entries, stddev left at the sentinel). -/
theorem claim7_witness :
    checkRoundTripTimeStats ("round-trip min/avg/max = 1/2/3 ms").toList (-1) (-1) (-1) (-1)
      = .ok (1, 2, 3, -1, false) :=
  (claim7_round_trip_token_parsing ("round-trip min/avg/max = 1/2/3 ms").toList
      ("1/2/3").toList (-1) (-1) (-1) (-1) (by decide)).1
    ("1").toList ("2").toList ("3").toList 1 2 3
    (by decide) (by decide) (by decide) (by decide)

/-- C10: the wall-clock timeout handed to the external-call primitive is the
fixed 60-second ceiling when the explicit `arguments` override is non-empty
and `count*timeout + (count-1)*pingInterval` otherwise, and the execution
layer's deadline is that value plus a fixed 5-second margin (exactly so, in
nanoseconds, for whole-second values). -/
theorem claim10_total_timeout :
    ∀ (arguments : List String) (count : Int) (timeout pingInterval : ℚ) (m : Int),
      (arguments ≠ [] → totalTimeout arguments count timeout pingInterval = 60)
      ∧ (arguments = [] →
          totalTimeout arguments count timeout pingInterval
            = ((count : ℚ)) * timeout + (((count : ℚ)) - 1) * pingInterval)
      ∧ (0 ≤ m → hostPingerDeadlineNs ((m : Int) : ℚ) = 1000000000 * (m + 5)) := by
  intro arguments count timeout pingInterval m
  refine ⟨?_, ?_, ?_⟩
  · intro h
    simp [totalTimeout, List.length_eq_zero, h]
  · intro h
    subst h
    simp [totalTimeout]
  · intro hm
    have h5 : (0 : ℚ) ≤ ((m : Int) : ℚ) + 5 := by positivity
    have hcast : (((m : Int)) : ℚ) + 5 = (((m + 5 : Int)) : ℚ) := by push_cast; ring
    unfold hostPingerDeadlineNs ratTrunc
    rw [if_pos h5, hcast, Int.floor_intCast]

/-- Witness for C10 at a concrete configuration. -/
theorem claim10_witness :
    totalTimeout ["-c"] 2 1 1 = 60
    ∧ totalTimeout [] 2 1 1 = 3
    ∧ hostPingerDeadlineNs ((7 : Int) : ℚ) = 12000000000 := by
  refine ⟨?_, ?_, ?_⟩
  · exact (claim10_total_timeout ["-c"] 2 1 1 0).1 (by simp)
  · exact ((claim10_total_timeout [] 2 1 1 0).2.1 rfl).trans (by norm_num)
  · exact ((claim10_total_timeout [] 2 1 1 7).2.2 (by decide)).trans (by decide)

set_option maxHeartbeats 1000000 in
/-- C8: `args` returns the explicit `arguments` override with the target
appended when that override is non-empty, and otherwise the base count and
payload-size flags followed, in the fixed order, by the conditional interval,
timeout (milliseconds on darwin and the BSDs, seconds on linux and unknown
families), deadline (`-t` on darwin/BSD, `-w` otherwise) and interface flags,
with the target always last — i.e. it equals `argsSpec`, the list the spec
describes. -/
theorem claim8_args_matches_spec :
    ∀ (p : PingConfig) (url system : String),
      args p url system = argsSpec p url system := by
  intro p url system
  rcases eq_or_ne p.arguments [] with hargs | hargs
  · have h0 : ¬ 0 < p.arguments.length := by simp [hargs]
    rcases eq_or_ne system "darwin" with h1 | h1
    · subst h1
      simp [args, argsSpec, msTimeoutFamily, bsdDeadlineFamily, ifaceFlag, h0, hargs]
      split_ifs <;> simp [List.append_assoc]
    · rcases eq_or_ne system "freebsd" with h2 | h2
      · subst h2
        simp [args, argsSpec, msTimeoutFamily, bsdDeadlineFamily, ifaceFlag, h0, hargs]
        split_ifs <;> simp [List.append_assoc]
      · rcases eq_or_ne system "netbsd" with h3 | h3
        · subst h3
          simp [args, argsSpec, msTimeoutFamily, bsdDeadlineFamily, ifaceFlag, h0, hargs]
          split_ifs <;> simp [List.append_assoc]
        · rcases eq_or_ne system "openbsd" with h4 | h4
          · subst h4
            simp [args, argsSpec, msTimeoutFamily, bsdDeadlineFamily, ifaceFlag, h0, hargs]
            split_ifs <;> simp [List.append_assoc]
          · rcases eq_or_ne system "linux" with h5 | h5
            · subst h5
              simp [args, argsSpec, msTimeoutFamily, bsdDeadlineFamily, ifaceFlag, h0, hargs]
              split_ifs <;> simp [List.append_assoc]
            · simp [args, argsSpec, msTimeoutFamily, bsdDeadlineFamily, ifaceFlag, h0, hargs,
                h1, h2, h3, h4, h5]
              split_ifs <;> simp [List.append_assoc]
  · have h0 : 0 < p.arguments.length := List.length_pos.mpr hargs
    simp [args, argsSpec, h0, hargs]
